import Mathlib

/-!
Verification of the repair-agent backend (src/agents/repair_agent.py,
src/agents/main.py, src/agents/claude_api.py) against its specification.

The Python code is shallowly embedded: Python values are modelled by the
inductive type `PyVal`, Python exceptions by `Except PyErr`, and every
`try/except` boundary in the source by an explicit `match` on the
`Except` result.  Machine-level details that the decision logic never
observes (floating-point arithmetic) are modelled symbolically: a JSON
number with a fractional or exponent part is kept as a mantissa/exponent
pair, which is enough to decide the only operations the code applies to
it (type tests, truthiness, equality with strings and booleans).
-/

/-- Model of a Python runtime value, covering the value shapes that can
reach the repair-agent code: `None`, booleans, integers, floats
(mantissa `m` and decimal exponent `e`, denoting `m * 10^e`), strings,
lists and dicts (association lists with unique keys, as produced by the
JSON parser below). -/
inductive PyVal where
  | none : PyVal
  | bool : Bool → PyVal
  | int : Int → PyVal
  | float : Int → Int → PyVal
  | str : String → PyVal
  | list : List PyVal → PyVal
  | dict : List (String × PyVal) → PyVal

/-- A Python exception, identified by the message that `str(e)` yields;
the repair-agent code only ever uses exceptions via `str(e)`. -/
structure PyErr where
  msg : String

/-- Python type name, as it appears in `TypeError`/`AttributeError`
messages. -/
def pyTypeName : PyVal → String
  | PyVal.none => "NoneType"
  | PyVal.bool _ => "bool"
  | PyVal.int _ => "int"
  | PyVal.float _ _ => "float"
  | PyVal.str _ => "str"
  | PyVal.list _ => "list"
  | PyVal.dict _ => "dict"

def PyVal.isDict : PyVal → Bool
  | PyVal.dict _ => true
  | _ => false

def PyVal.isStr : PyVal → Bool
  | PyVal.str _ => true
  | _ => false

def PyVal.isList : PyVal → Bool
  | PyVal.list _ => true
  | _ => false

/-- Python truthiness (`bool(v)`), as used by `if not x` in the source. -/
def pyTruthy : PyVal → Bool
  | PyVal.none => false
  | PyVal.bool b => b
  | PyVal.int n => decide (n ≠ 0)
  | PyVal.float m _ => decide (m ≠ 0)
  | PyVal.str s => decide (s ≠ "")
  | PyVal.list xs => !xs.isEmpty
  | PyVal.dict es => !es.isEmpty

/-- First (unique) binding of `key` in a Python dict. -/
def dictFind : List (String × PyVal) → String → Option PyVal
  | [], _ => Option.none
  | (k, v) :: rest, key => if k = key then some v else dictFind rest key

/-- Python equality `v == s` between an arbitrary value and a string
literal, as used by `field in some_list` membership tests: only equal
strings compare equal to a string. -/
def pyEqStrB (v : PyVal) (s : String) : Bool :=
  match v with
  | PyVal.str t => decide (t = s)
  | _ => false

/-- Test whether `needle` starts `hay` (character lists). -/
def charsLeading : List Char → List Char → Bool
  | [], _ => true
  | _ :: _, [] => false
  | a :: as, b :: bs => a = b && charsLeading as bs

/-- Test whether `needle` occurs as a contiguous substring of `hay`
(character lists); models Python `needle in hay` for strings. -/
def charsContain (needle : List Char) : List Char → Bool
  | [] => charsLeading needle []
  | hay@(_ :: rest) => charsLeading needle hay || charsContain needle rest

/-- Python `field in container` for the containers the code can meet:
key membership for dicts, element equality for lists, substring test
for strings, and a `TypeError` for non-iterable values. -/
def pyContains (container : PyVal) (field : String) : Except PyErr Bool :=
  match container with
  | PyVal.dict entries => Except.ok (dictFind entries field).isSome
  | PyVal.list xs => Except.ok (xs.any (fun x => pyEqStrB x field))
  | PyVal.str s => Except.ok (charsContain field.toList s.toList)
  | v => Except.error ⟨"argument of type \x27" ++ pyTypeName v ++ "\x27 is not iterable"⟩

/-- Python `container.get(key, default)`: dict lookup with default, an
`AttributeError` on every other type. -/
def pyGet (container : PyVal) (key : String) (default : PyVal) : Except PyErr PyVal :=
  match container with
  | PyVal.dict entries => Except.ok ((dictFind entries key).getD default)
  | v => Except.error ⟨"\x27" ++ pyTypeName v ++ "\x27 object has no attribute \x27get\x27"⟩

/-- ASCII lowering of one character, the fragment of Python
`str.lower()` exercised by the decision logic. -/
def charLower (c : Char) : Char :=
  if 'A' ≤ c ∧ c ≤ 'Z' then Char.ofNat (c.toNat + 32) else c

/-- Model of Python `str.lower()` on the string payload. -/
def strLower (s : String) : String :=
  String.mk (s.toList.map charLower)

/-- Python `v.lower()`: succeeds on strings, raises `AttributeError`
on every other type (this is how a non-string `complexity_level`
escapes the decision logic in the source). -/
def pyLower : PyVal → Except PyErr PyVal
  | PyVal.str s => Except.ok (PyVal.str (strLower s))
  | v => Except.error ⟨"\x27" ++ pyTypeName v ++ "\x27 object has no attribute \x27lower\x27"⟩

/-- Python `repr` of a list of strings, as interpolated by the
f-string `f"Missing required fields in Claude response: {missing_fields}"`. -/
def pyStrListRepr (xs : List String) : String :=
  "[" ++ String.intercalate ", " (xs.map (fun s => "\x27" ++ s ++ "\x27")) ++ "]"

/-! ## src/agents/repair_agent.py -/

/-- The required fields checked at the top of `handle_claude_response`. -/
def required_fields : List String := ["parts_needed", "complexity_level", "further_inquiry"]

/-- The field-presence loop of `handle_claude_response` (lines 32-34):
collects the required fields that are not `in response`, in order; the
membership test itself can raise (non-iterable `response`). -/
def collectMissing : List String → PyVal → Except PyErr (List String)
  | [], _ => Except.ok []
  | f :: fs, response =>
    match pyContains response f with
    | Except.error e => Except.error e
    | Except.ok b =>
      match collectMissing fs response with
      | Except.error e => Except.error e
      | Except.ok rest => Except.ok (if b then rest else f :: rest)

/-- Python `x is True`. -/
def isTrueLit : PyVal → Bool
  | PyVal.bool true => true
  | _ => false

/-- Python `x is False`. -/
def isFalseLit : PyVal → Bool
  | PyVal.bool false => true
  | _ => false

def contractor_dispatch_message : String :=
  "It seems your issue is rather complex, would you like for me to dispatch a contractor to your address?"

def no_questions_message : String :=
  "I need more information to help you, but no specific questions were provided."

def no_instructions_message : String :=
  "I should provide repair instructions, but none were generated."

def unclear_inquiry_message : String :=
  "Unable to determine next steps due to unclear inquiry status."

def fallback_message : String :=
  "Unable to determine the appropriate next steps for this repair situation."

/-- The decision rules of `handle_claude_response` (lines 51-91), applied
to the five extracted values.  `complexity_level` is already lowered at
this point. -/
def decisionTable (parts_needed complexity_level further_inquiry further_questions instructions : PyVal) : PyVal :=
  if isTrueLit parts_needed || pyEqStrB complexity_level "high" then
    PyVal.str contractor_dispatch_message
  else if isFalseLit parts_needed && (pyEqStrB complexity_level "medium" || pyEqStrB complexity_level "low") then
    if isTrueLit further_inquiry then
      if pyTruthy further_questions = false then PyVal.str no_questions_message
      else further_questions
    else if isFalseLit further_inquiry then
      if pyTruthy instructions = false then PyVal.str no_instructions_message
      else instructions
    else PyVal.str unclear_inquiry_message
  else PyVal.str fallback_message

/-- Field extraction of `handle_claude_response` (lines 42-46) followed
by the decision rules; any step can raise (`.get` on a non-dict,
`.lower()` on a non-string). -/
def extractAndDecide (response : PyVal) : Except PyErr PyVal :=
  match pyGet response "parts_needed" PyVal.none with
  | Except.error e => Except.error e
  | Except.ok parts_needed =>
    match pyGet response "complexity_level" (PyVal.str "") with
    | Except.error e => Except.error e
    | Except.ok cl0 =>
      match pyLower cl0 with
      | Except.error e => Except.error e
      | Except.ok complexity_level =>
        match pyGet response "further_inquiry" PyVal.none with
        | Except.error e => Except.error e
        | Except.ok further_inquiry =>
          match pyGet response "further_questions" (PyVal.str "") with
          | Except.error e => Except.error e
          | Except.ok further_questions =>
            match pyGet response "instructions" (PyVal.str "") with
            | Except.error e => Except.error e
            | Except.ok instructions =>
              Except.ok (decisionTable parts_needed complexity_level further_inquiry further_questions instructions)

/-- Body of the `try` block of `handle_claude_response` (lines 25-91):
presence check, `ValueError` for missing required fields, then
extraction and the decision rules. -/
def handle_claude_response_body (response : PyVal) : Except PyErr PyVal :=
  match collectMissing required_fields response with
  | Except.error e => Except.error e
  | Except.ok missing_fields =>
    if missing_fields.isEmpty then
      extractAndDecide response
    else
      Except.error ⟨"Missing required fields in Claude response: " ++ pyStrListRepr missing_fields⟩

/-- Function `handle_claude_response` (lines 12-95): the body above wrapped by
`except Exception as e: return f"Error processing repair analysis: {str(e)}"`. -/
def handle_claude_response (response : PyVal) : PyVal :=
  match handle_claude_response_body response with
  | Except.ok message => message
  | Except.error e => PyVal.str ("Error processing repair analysis: " ++ e.msg)

/-! ## Model of Python json.loads

`generate_response` feeds string input through `json.loads`; the parser
below models the stdlib JSON decoder: optional whitespace around one
JSON value (object / array / string / number / `true` / `false` /
`null`, plus the Python extensions `NaN`, `Infinity`, `-Infinity`),
rejecting trailing data, control characters inside strings, unknown
escapes, and leading zeros.  `NaN` and the infinities are mapped to
nonzero float stand-ins: the repair-agent code never does float
arithmetic, so only their type and truthiness matter. -/

def jsonWs (c : Char) : Bool := [' ', '\t', '\n', '\r'].contains c

def skipWs (cs : List Char) : List Char :=
  match cs with
  | [] => []
  | c :: more => if jsonWs c then skipWs more else cs

def isDigitCh (c : Char) : Bool := 48 ≤ c.toNat && c.toNat ≤ 57

def hexVal (c : Char) : Option Nat :=
  let n := c.toNat
  if 48 ≤ n && n ≤ 57 then some (n - 48)
  else if 97 ≤ n && n ≤ 102 then some (n - 87)
  else if 65 ≤ n && n ≤ 70 then some (n - 55)
  else Option.none

/-- Translation table for the single-character JSON escapes. -/
def escMap : List (Char × Char) :=
  [('"', '"'), ('\\', '\\'), ('/', '/'), ('b', '\x08'), ('f', '\x0c'),
   ('n', '\x0a'), ('r', '\x0d'), ('t', '\x09')]

/-- JSON string body after the opening quote: plain characters up to
the closing quote, with the standard escapes (single-character escapes
via `escMap`, code-point escapes via `hexVal`), rejecting unescaped
control characters, unknown escapes and unterminated strings. -/
def parseStringBody : List Char → Option (List Char × List Char)
  | [] => Option.none
  | '"' :: tail => some ([], tail)
  | '\\' :: 'u' :: h1 :: h2 :: h3 :: h4 :: tail =>
    (match hexVal h1, hexVal h2, hexVal h3, hexVal h4 with
     | some a, some b, some c, some d =>
       (parseStringBody tail).map (fun p => (Char.ofNat (a * 4096 + b * 256 + c * 16 + d) :: p.1, p.2))
     | _, _, _, _ => Option.none)
  | '\\' :: e :: tail =>
    (match escMap.find? (fun kv => kv.1 = e) with
     | some kv => (parseStringBody tail).map (fun p => (kv.2 :: p.1, p.2))
     | Option.none => Option.none)
  | '\\' :: [] => Option.none
  | c :: tail =>
    if c.toNat < 32 then Option.none
    else (parseStringBody tail).map (fun p => (c :: p.1, p.2))

/-- Split off the longest digit run at the front (accumulator form). -/
def digitSpanAux (acc : List Char) (cs : List Char) : List Char × List Char :=
  match cs with
  | [] => (acc.reverse, [])
  | d :: more => if isDigitCh d then digitSpanAux (d :: acc) more else (acc.reverse, cs)

def digitSpan (cs : List Char) : List Char × List Char :=
  digitSpanAux [] cs

/-- Decimal value of a digit run (accumulator form). -/
def digitsToNat (acc : Nat) : List Char → Nat
  | [] => acc
  | d :: more => digitsToNat (acc * 10 + (d.toNat - 48)) more

/-- JSON number grammar `-?(0|[1-9][0-9]*)(\.[0-9]+)?([eE][+-]?[0-9]+)?`;
an integer literal yields `PyVal.int`, a fraction or exponent yields a
`PyVal.float` mantissa/exponent pair. -/
def numSign : List Char → Int × List Char
  | '-' :: more => (-1, more)
  | other => (1, other)

def expSign : List Char → Int × List Char
  | '+' :: more => (1, more)
  | '-' :: more => (-1, more)
  | other => (1, other)

def parseNumber (cs : List Char) : Option (PyVal × List Char) :=
  let sgn := numSign cs
  match digitSpan sgn.2 with
  | ([], _) => Option.none
  | (intDs, rest1) =>
    if intDs.length > 1 && intDs.headD '0' = '0' then Option.none
    else
      let fracP : Option (List Char × List Char) :=
        match rest1 with
        | '.' :: r =>
          (match digitSpan r with
           | ([], _) => Option.none
           | (ds, r2) => some (ds, r2))
        | _ => some ([], rest1)
      match fracP with
      | Option.none => Option.none
      | some (fracDs, rest2) =>
        let expP : Option (Option Int × List Char) :=
          match rest2 with
          | 'e' :: r | 'E' :: r =>
            let se := expSign r
            (match digitSpan se.2 with
             | ([], _) => Option.none
             | (ds, r3) => some (some (se.1 * Int.ofNat (digitsToNat 0 ds)), r3))
          | _ => some (Option.none, rest2)
        match expP with
        | Option.none => Option.none
        | some (expOpt, rest3) =>
          let mant : Int := sgn.1 * Int.ofNat (digitsToNat 0 (intDs ++ fracDs))
          if fracDs.isEmpty && expOpt.isNone then
            some (PyVal.int mant, rest3)
          else
            some (PyVal.float mant (expOpt.getD 0 - Int.ofNat fracDs.length), rest3)

/-- Replace the binding of `k` (keeping its position) or append it:
Python dict insertion for duplicate JSON object keys (last value wins). -/
def dictUpsert : List (String × PyVal) → String → PyVal → List (String × PyVal)
  | [], k, v => [(k, v)]
  | (k0, v0) :: rest, k, v =>
    if k0 = k then (k0, v) :: rest else (k0, v0) :: dictUpsert rest k v

mutual

/-- One JSON value starting at `cs` (leading whitespace already
consumed); `fuel` strictly bounds the recursion and is chosen large
enough for any input in `json_loads`. -/
def parseValue : Nat → List Char → Option (PyVal × List Char)
  | 0, _ => Option.none
  | Nat.succ fuel, cs =>
    match cs with
    | [] => Option.none
    | '"' :: rest => (parseStringBody rest).map (fun p => (PyVal.str (String.mk p.1), p.2))
    | '[' :: rest =>
      (match skipWs rest with
       | ']' :: rest2 => some (PyVal.list [], rest2)
       | cs2 => parseArrayItems fuel cs2 [])
    | '{' :: rest =>
      (match skipWs rest with
       | '}' :: rest2 => some (PyVal.dict [], rest2)
       | cs2 => parseObjectItems fuel cs2 [])
    | 't' :: more =>
      if charsLeading ['r', 'u', 'e'] more then some (PyVal.bool true, more.drop 3)
      else Option.none
    | 'f' :: more =>
      if charsLeading ['a', 'l', 's', 'e'] more then some (PyVal.bool false, more.drop 4)
      else Option.none
    | 'n' :: more =>
      if charsLeading ['u', 'l', 'l'] more then some (PyVal.none, more.drop 3)
      else Option.none
    | 'N' :: more =>
      if charsLeading ['a', 'N'] more then some (PyVal.float 1 0, more.drop 2)
      else Option.none
    | 'I' :: more =>
      if charsLeading ['n', 'f', 'i', 'n', 'i', 't', 'y'] more then
        some (PyVal.float 1 0, more.drop 7)
      else Option.none
    | '-' :: 'I' :: more =>
      if charsLeading ['n', 'f', 'i', 'n', 'i', 't', 'y'] more then
        some (PyVal.float (-1) 0, more.drop 7)
      else Option.none
    | _ => parseNumber cs

/-- Array items after `[` (first item not yet parsed, terminator `]`
for the empty array already handled by the caller). -/
def parseArrayItems : Nat → List Char → List PyVal → Option (PyVal × List Char)
  | 0, _, _ => Option.none
  | Nat.succ fuel, cs, acc =>
    match parseValue fuel cs with
    | Option.none => Option.none
    | some (v, rest) =>
      match skipWs rest with
      | ',' :: rest2 => parseArrayItems fuel (skipWs rest2) (acc ++ [v])
      | ']' :: rest2 => some (PyVal.list (acc ++ [v]), rest2)
      | _ => Option.none

/-- Object members after `{` (first key not yet parsed, `}` for the
empty object already handled by the caller). -/
def parseObjectItems : Nat → List Char → List (String × PyVal) → Option (PyVal × List Char)
  | 0, _, _ => Option.none
  | Nat.succ fuel, cs, acc =>
    match cs with
    | '"' :: rest =>
      (match parseStringBody rest with
       | Option.none => Option.none
       | some (keyChars, rest1) =>
         match skipWs rest1 with
         | ':' :: rest2 =>
           (match parseValue fuel (skipWs rest2) with
            | Option.none => Option.none
            | some (v, rest3) =>
              let acc2 := dictUpsert acc (String.mk keyChars) v
              match skipWs rest3 with
              | ',' :: rest4 => parseObjectItems fuel (skipWs rest4) acc2
              | '}' :: rest4 => some (PyVal.dict acc2, rest4)
              | _ => Option.none)
         | _ => Option.none)
    | _ => Option.none

end

/-- Model of `json.loads`: one JSON value surrounded by optional
whitespace, everything else is a decode error (`Option.none`).  The
fuel `2 * length + 8` strictly exceeds the number of recursive calls
any input of that length can cause, so it never cuts a parse short. -/
def json_loads (s : String) : Option PyVal :=
  match parseValue (2 * s.length + 8) (skipWs s.toList) with
  | some (v, rest) => if (skipWs rest).isEmpty then some v else Option.none
  | Option.none => Option.none

/-! ## str() conversion and generate_response -/

/-- Rendering of the atomic values, shared by Python `str()` and
`repr()`. -/
def pyAtomRepr : PyVal → String
  | PyVal.none => "None"
  | PyVal.bool true => "True"
  | PyVal.bool false => "False"
  | PyVal.int n => toString n
  | PyVal.float m e => toString m ++ "e" ++ toString e
  | _ => ""

mutual

/-- Model of Python `repr()` for the value shapes of `PyVal`; strings
are quoted, containers recurse.  Two simplifications against CPython:
string quoting does not escape special characters, and floats are
rendered in mantissa/exponent form — neither shape is consulted by any
theorem below, the function exists to make `str(data)` in
`generate_response` total and non-empty. -/
def pyRepr : PyVal → String
  | PyVal.str s => "\x27" ++ s ++ "\x27"
  | PyVal.list xs => "[" ++ pyReprJoin xs ++ "]"
  | PyVal.dict es => "\x7b" ++ pyReprDictJoin es ++ "\x7d"
  | v => pyAtomRepr v

def pyReprJoin : List PyVal → String
  | [] => ""
  | [x] => pyRepr x
  | x :: xs => pyRepr x ++ ", " ++ pyReprJoin xs

def pyReprDictJoin : List (String × PyVal) → String
  | [] => ""
  | [(k, v)] => "\x27" ++ k ++ "\x27: " ++ pyRepr v
  | (k, v) :: es => "\x27" ++ k ++ "\x27: " ++ pyRepr v ++ ", " ++ pyReprDictJoin es

end

/-- Model of Python `str()`: identity on strings, `repr`-style
otherwise. -/
def pyStr : PyVal → String
  | PyVal.str s => s
  | v => pyRepr v

/-- Body of the `try` block of `generate_response` (lines 149-173):
strings go through `json.loads` (decode failure echoes the string
back), dicts go straight to `handle_claude_response`, anything else is
returned via `str(data)`. -/
def generate_response_body (data : PyVal) : Except PyErr PyVal :=
  match data with
  | PyVal.str s =>
    (match json_loads s with
     | some parsed_data => Except.ok (handle_claude_response parsed_data)
     | Option.none => Except.ok (PyVal.str s))
  | PyVal.dict entries => Except.ok (handle_claude_response (PyVal.dict entries))
  | v => Except.ok (PyVal.str (pyStr v))

/-- Function `generate_response` (lines 138-177): the body above wrapped by the
outer `except Exception` (lines 175-177), which converts any escaping
exception into the same diagnostic prefix used by
`handle_claude_response`. -/
def generate_response (data : PyVal) : PyVal :=
  match generate_response_body data with
  | Except.ok r => r
  | Except.error e => PyVal.str ("Error processing repair analysis: " ++ e.msg)

/-! ## src/agents/main.py -/

/-- Result dictionary of the `/handle-prompt` route: either
`{"status": "success", "response": ...}` or
`{"status": "error", "message": ...}`. -/
inductive GatewayResult where
  | success : PyVal → GatewayResult
  | error : String → GatewayResult

/-- Route handler `handle_prompt` (main.py lines 50-83), parameterised by the outcome
of `process_prompt` (which catches all its own exceptions and returns
`None` on any failure): `None` becomes a fixed error result, a reply
string is passed through `generate_response`.  The route-level
`except Exception` (lines 79-83) is modelled by the totality of this
function: both callees are total, so no exception can escape. -/
def handle_prompt (claude_output : Option String) : GatewayResult :=
  match claude_output with
  | Option.none => GatewayResult.error "Failed to get response from Claude API"
  | some s => GatewayResult.success (generate_response (PyVal.str s))

/-! ## src/agents/claude_api.py -/

/-- Python `content[0]` as used on line 130; under the guard on
line 129 only the non-empty-list arm is reachable. -/
def pyIndexZero : PyVal → Except PyErr PyVal
  | PyVal.list (x :: _) => Except.ok x
  | PyVal.list [] => Except.error ⟨"list index out of range"⟩
  | v => Except.error ⟨"\x27" ++ pyTypeName v ++ "\x27 object is not subscriptable"⟩

/-- Python `len()` for the sized values; only consulted after the
`isinstance(content, list)` guard. -/
def pyLen : PyVal → Nat
  | PyVal.list xs => xs.length
  | PyVal.str s => s.length
  | PyVal.dict es => es.length
  | _ => 0

/-- The status-200 arm of `send_claude_request` (claude_api.py
lines 125-133), applied to the decoded response payload
`response_data`: extract `content`, check it is a non-empty list, and
return `content[0].get('text', '')`; `ok Option.none` is the explicit
`return None` of line 133. -/
def send_claude_request_200_body (response_data : PyVal) : Except PyErr (Option PyVal) :=
  match pyGet response_data "content" (PyVal.list []) with
  | Except.error e => Except.error e
  | Except.ok content =>
    if pyTruthy content && content.isList && decide (0 < pyLen content) then
      match pyIndexZero content with
      | Except.error e => Except.error e
      | Except.ok first =>
        match pyGet first "text" (PyVal.str "") with
        | Except.error e => Except.error e
        | Except.ok t => Except.ok (some t)
    else
      Except.ok Option.none

/-- The value `send_claude_request` returns for a status-200 response
with decoded payload `response_data`: the body above, with any raised
exception converted to `None` by the `except Exception` handler on
lines 141-143. -/
def send_claude_request_on_200 (response_data : PyVal) : Option PyVal :=
  match send_claude_request_200_body response_data with
  | Except.ok r => r
  | Except.error _ => Option.none

/-- A value that is a non-empty Python string; the shape the spec
promises for every interpreter output. -/
def isNonEmptyString : PyVal → Bool
  | PyVal.str s => decide (s ≠ "")
  | _ => false

/-! ## Helper lemmas -/

/-- On a dict input `generate_response` delegates directly to
`handle_claude_response`. -/
theorem generate_response_dict (d : List (String × PyVal)) :
    generate_response (PyVal.dict d) = handle_claude_response (PyVal.dict d) := rfl

/-- On a dict that binds the three required fields, with a string
`complexity_level`, `handle_claude_response` reduces to the decision
rules applied to the extracted (lowered) values. -/
theorem handle_dict_reduces (d : List (String × PyVal)) (pn fi : PyVal) (cl : String)
    (hpn : dictFind d "parts_needed" = some pn)
    (hcl : dictFind d "complexity_level" = some (PyVal.str cl))
    (hfi : dictFind d "further_inquiry" = some fi) :
    handle_claude_response (PyVal.dict d) =
      decisionTable pn (PyVal.str (strLower cl)) fi
        ((dictFind d "further_questions").getD (PyVal.str ""))
        ((dictFind d "instructions").getD (PyVal.str "")) := by
  simp [handle_claude_response, handle_claude_response_body, collectMissing, required_fields,
    pyContains, hpn, hcl, hfi, extractAndDecide, pyGet, pyLower]

/-- Diagnostic strings built from the interpreter's error prefix are
never empty. -/
theorem err_string_ne_empty (m : String) :
    ("Error processing repair analysis: " ++ m) ≠ "" := by
  intro h
  have h2 := congrArg String.length h
  rw [String.length_append] at h2
  have h3 : ("Error processing repair analysis: " : String).length = 34 := rfl
  have h4 : ("" : String).length = 0 := rfl
  rw [h3, h4] at h2
  omega

/-- Every non-dict value makes the extraction step of
`handle_claude_response` raise (an `AttributeError` from `.get`). -/
theorem extract_nondict (v : PyVal) (h : v.isDict = false) :
    ∃ m, extractAndDecide v = Except.error ⟨m⟩ := by
  cases v with
  | dict es => simp [PyVal.isDict] at h
  | none => exact ⟨_, rfl⟩
  | bool b => exact ⟨_, rfl⟩
  | int m => exact ⟨_, rfl⟩
  | float m e => exact ⟨_, rfl⟩
  | str t => exact ⟨_, rfl⟩
  | list xs => exact ⟨_, rfl⟩

/-- On every non-dict value `handle_claude_response` produces the
`Error processing repair analysis` diagnostic (every path through the
body raises). -/
theorem handle_nondict (v : PyVal) (h : v.isDict = false) :
    ∃ m, handle_claude_response v = PyVal.str ("Error processing repair analysis: " ++ m) := by
  rcases h2 : collectMissing required_fields v with e | missing
  · exact ⟨e.msg, by simp [handle_claude_response, handle_claude_response_body, h2]⟩
  · by_cases hm : missing.isEmpty = true
    · obtain ⟨m, hm2⟩ := extract_nondict v h
      exact ⟨m, by simp [handle_claude_response, handle_claude_response_body, h2, hm, hm2]⟩
    · exact ⟨"Missing required fields in Claude response: " ++ pyStrListRepr missing,
        by simp [handle_claude_response, handle_claude_response_body, h2, hm]⟩

/-- Every normal (non-raising) result of the body of
`handle_claude_response` is an output of the decision rules. -/
theorem body_ok_shape (v : PyVal) (r : PyVal)
    (h : handle_claude_response_body v = Except.ok r) :
    ∃ a b c d e, r = decisionTable a b c d e := by
  unfold handle_claude_response_body at h
  rcases hcm : collectMissing required_fields v with e | missing <;> rw [hcm] at h
  · simp at h
  · by_cases hm : missing.isEmpty = true <;> simp [hm] at h
    unfold extractAndDecide at h
    rcases h1 : pyGet v "parts_needed" PyVal.none with e | pn
    · simp only [h1] at h; simp at h
    · simp only [h1] at h
      rcases h2 : pyGet v "complexity_level" (PyVal.str "") with e | cl0
      · simp only [h2] at h; simp at h
      · simp only [h2] at h
        rcases h3 : pyLower cl0 with e | cl
        · simp only [h3] at h; simp at h
        · simp only [h3] at h
          rcases h4 : pyGet v "further_inquiry" PyVal.none with e | fi
          · simp only [h4] at h; simp at h
          · simp only [h4] at h
            rcases h5 : pyGet v "further_questions" (PyVal.str "") with e | fq
            · simp only [h5] at h; simp at h
            · simp only [h5] at h
              rcases h6 : pyGet v "instructions" (PyVal.str "") with e | ins
              · simp only [h6] at h; simp at h
              · simp only [h6] at h
                refine ⟨pn, cl, fi, fq, ins, ?_⟩
                injection h with h7
                exact h7.symm

/-- Every output of the decision rules is either a non-empty string or
a non-string value passed through from `further_questions` /
`instructions`. -/
theorem decisionTable_shape (a b c d e : PyVal) :
    isNonEmptyString (decisionTable a b c d e) = true ∨
    (decisionTable a b c d e).isStr = false := by
  unfold decisionTable
  split_ifs with h1 h2 h3 h4 h5 h6
  · left; decide
  · left; decide
  · have ht : pyTruthy d = true := by revert h4; cases pyTruthy d <;> simp
    cases d <;> simp_all [pyTruthy, isNonEmptyString, PyVal.isStr]
  · left; decide
  · have ht : pyTruthy e = true := by revert h6; cases pyTruthy e <;> simp
    cases e <;> simp_all [pyTruthy, isNonEmptyString, PyVal.isStr]
  · left; decide
  · left; decide

/-- Every output of `handle_claude_response` is either a non-empty
string or a non-string field value passed through by the decision
rules. -/
theorem handle_shape (v : PyVal) :
    isNonEmptyString (handle_claude_response v) = true ∨
    (handle_claude_response v).isStr = false := by
  rcases h : handle_claude_response_body v with e | r
  · left
    have := err_string_ne_empty e.msg
    simp [handle_claude_response, h, isNonEmptyString, this]
  · obtain ⟨a, b, c, d, e', hr⟩ := body_ok_shape v r h
    have hv : handle_claude_response v = r := by simp [handle_claude_response, h]
    rw [hv, hr]
    exact decisionTable_shape a b c d e'

/-! ## Claim theorems -/

/-- C1, counterexample: a record with all three required fields present
but `complexity_level` equal to `"banana"` — invalid in the claim's
sense, since `"banana"` is not one of low/medium/high even
case-insensitively — is not answered with a missing-required-fields
message: the interpreter runs the decision table on it and returns the
generic fallback message, which does not mention missing fields at
all. -/
theorem C1_invalid_record_reaches_table_counterexample :
    ¬ (strLower "banana" ∈ ["low", "medium", "high"]) ∧
    generate_response (PyVal.dict [("parts_needed", PyVal.bool false),
      ("complexity_level", PyVal.str "banana"), ("further_inquiry", PyVal.bool true)]) =
      PyVal.str fallback_message ∧
    charsContain "Missing required fields".toList fallback_message.toList = false :=
  ⟨by decide, rfl, by decide⟩

/-- C1, amended: only field *presence* is validated.  For every input
record that lacks at least one of the required fields `parts_needed`,
`complexity_level`, `further_inquiry`, the interpreter returns the
diagnostic naming exactly the missing fields, and the record never
reaches the decision table; wrong-typed or out-of-range values of
present fields are not rejected by this check. -/
theorem C1_missing_fields_rejected (d : List (String × PyVal)) (missing : List String)
    (h : collectMissing required_fields (PyVal.dict d) = Except.ok missing)
    (hne : missing.isEmpty = false) :
    generate_response (PyVal.dict d) =
      PyVal.str ("Error processing repair analysis: " ++
        ("Missing required fields in Claude response: " ++ pyStrListRepr missing)) := by
  rw [generate_response_dict]
  unfold handle_claude_response handle_claude_response_body
  rw [h]
  simp [hne]

/-- Witness for C1: a record carrying only `parts_needed` is rejected
with the diagnostic naming the two missing fields. -/
theorem C1_missing_fields_rejected_witness :
    generate_response (PyVal.dict [("parts_needed", PyVal.bool true)]) =
      PyVal.str ("Error processing repair analysis: " ++
        ("Missing required fields in Claude response: " ++
          pyStrListRepr ["complexity_level", "further_inquiry"])) :=
  C1_missing_fields_rejected [("parts_needed", PyVal.bool true)]
    ["complexity_level", "further_inquiry"] rfl rfl

/-- C2, counterexample: the empty raw string is not valid JSON, so the
interpreter echoes it back verbatim — the output is a string but it is
empty, contradicting the claim that the output is always a non-empty
string. -/
theorem C2_empty_echo_counterexample :
    isNonEmptyString (generate_response (PyVal.str "")) = false ∧
    generate_response (PyVal.str "") = PyVal.str "" :=
  ⟨rfl, rfl⟩

/-- C2, amended: for every structured record, raw string, or upstream
failure (`None`) input, the interpreter returns a single value that is
a non-empty string, except that (a) an unparsable raw string is echoed
back verbatim and may therefore be empty, and (b) a record that
supplies a truthy non-string `further_questions` / `instructions`
value has that non-string value passed through unchanged. -/
theorem C2_output_shape (v : PyVal)
    (h : v.isDict = true ∨ v.isStr = true ∨ v = PyVal.none) :
    isNonEmptyString (generate_response v) = true ∨
    (v.isStr = true ∧ generate_response v = v) ∨
    (generate_response v).isStr = false := by
  cases v with
  | dict d =>
    rw [generate_response_dict]
    rcases handle_shape (PyVal.dict d) with h1 | h1
    · exact Or.inl h1
    · exact Or.inr (Or.inr h1)
  | str s =>
    rcases hj : json_loads s with _ | w
    · exact Or.inr (Or.inl ⟨rfl, by simp [generate_response, generate_response_body, hj]⟩)
    · have hg : generate_response (PyVal.str s) = handle_claude_response w := by
        simp [generate_response, generate_response_body, hj]
      rw [hg]
      rcases handle_shape w with h1 | h1
      · exact Or.inl h1
      · exact Or.inr (Or.inr h1)
  | none => left; decide
  | bool b => rcases h with h | h | h <;> simp [PyVal.isDict, PyVal.isStr] at h
  | int n => rcases h with h | h | h <;> simp [PyVal.isDict, PyVal.isStr] at h
  | float m e => rcases h with h | h | h <;> simp [PyVal.isDict, PyVal.isStr] at h
  | list xs => rcases h with h | h | h <;> simp [PyVal.isDict, PyVal.isStr] at h

/-- Witness for C2: the upstream-failure input (`None`) satisfies the
hypothesis and yields the non-empty string branch (`str(None)` is
`"None"`). -/
theorem C2_output_shape_witness :
    isNonEmptyString (generate_response PyVal.none) = true ∨
    (PyVal.none.isStr = true ∧ generate_response PyVal.none = PyVal.none) ∨
    (generate_response PyVal.none).isStr = false :=
  C2_output_shape PyVal.none (Or.inr (Or.inr rfl))

/-- C3 (confirmed): for every well-formed record — required fields
present with `parts_needed` / `further_inquiry` boolean and
`complexity_level` a string that lowers to low/medium/high — in which
`parts_needed` is true or `complexity_level` lowers to `"high"`, the
interpreter returns the fixed contractor-dispatch message, whatever
`further_inquiry`, `further_questions` and `instructions` hold. -/
theorem C3_contractor_dispatch (d : List (String × PyVal)) (pn fi : Bool) (cl : String)
    (hpn : dictFind d "parts_needed" = some (PyVal.bool pn))
    (hcl : dictFind d "complexity_level" = some (PyVal.str cl))
    (hfi : dictFind d "further_inquiry" = some (PyVal.bool fi))
    (_hwf : strLower cl = "low" ∨ strLower cl = "medium" ∨ strLower cl = "high")
    (hcond : pn = true ∨ strLower cl = "high") :
    generate_response (PyVal.dict d) = PyVal.str contractor_dispatch_message := by
  rw [generate_response_dict, handle_dict_reduces d _ _ cl hpn hcl hfi]
  rcases hcond with h | h
  · subst h; simp [decisionTable, isTrueLit]
  · simp [decisionTable, isTrueLit, pyEqStrB, h]

/-- Witness for C3: `complexity_level = "HIGH"` with `parts_needed =
false` triggers the contractor-dispatch message (case-insensitivity
included). -/
theorem C3_contractor_dispatch_witness :
    generate_response (PyVal.dict [("parts_needed", PyVal.bool false),
      ("complexity_level", PyVal.str "HIGH"), ("further_inquiry", PyVal.bool true)]) =
      PyVal.str contractor_dispatch_message :=
  C3_contractor_dispatch [("parts_needed", PyVal.bool false),
      ("complexity_level", PyVal.str "HIGH"), ("further_inquiry", PyVal.bool true)]
    false true "HIGH" rfl rfl rfl (Or.inr (Or.inr rfl)) (Or.inr rfl)

/-- C4 (confirmed): every raw-string input that the JSON decoder
rejects is returned unmodified as the message. -/
theorem C4_unparsable_returned_verbatim (s : String) (h : json_loads s = Option.none) :
    generate_response (PyVal.str s) = PyVal.str s := by
  simp [generate_response, generate_response_body, h]

/-- Witness for C4: a plain-prose model answer is not JSON and is
echoed back verbatim. -/
theorem C4_unparsable_returned_verbatim_witness :
    generate_response (PyVal.str "I cannot help with that.") =
      PyVal.str "I cannot help with that." :=
  C4_unparsable_returned_verbatim "I cannot help with that." rfl

/-- C5 (confirmed): for every input value of any type, the decision
step either completes normally — and the interpreter returns its value
— or raises, and the `except Exception` boundary converts the
exception into the `Error processing repair analysis` diagnostic
string; in the embedding `handle_claude_response` and
`generate_response` are total functions, so no exception ever
propagates out of the interpreter. -/
theorem C5_interpreter_never_raises (v : PyVal) :
    (∃ r, handle_claude_response_body v = Except.ok r ∧ handle_claude_response v = r) ∨
    (∃ e, handle_claude_response_body v = Except.error e ∧
      handle_claude_response v = PyVal.str ("Error processing repair analysis: " ++ e.msg)) := by
  rcases h : handle_claude_response_body v with e | r
  · exact Or.inr ⟨e, rfl, by simp [handle_claude_response, h]⟩
  · exact Or.inl ⟨r, rfl, by simp [handle_claude_response, h]⟩

/-- C6 (confirmed): for every analysis outcome, when the outcome is a
Failure (`None`) the Gateway returns status error with a non-empty
diagnostic message, and when it is raw reply text the Gateway returns
status success carrying the interpreter's message for that text;
`handle_prompt` is a total function, so no exception escapes the
Gateway boundary. -/
theorem C6_gateway_status (o : Option String) :
    (o = Option.none → ∃ m, handle_prompt o = GatewayResult.error m ∧ m ≠ "") ∧
    (∀ s, o = some s →
      handle_prompt o = GatewayResult.success (generate_response (PyVal.str s))) := by
  constructor
  · intro h
    subst h
    exact ⟨"Failed to get response from Claude API", rfl, by decide⟩
  · intro s h
    subst h
    rfl

/-- Witness for C6: both hypotheses discharged at concrete outcomes —
the Failure outcome yields a non-empty error message, a concrete reply
string yields status success with the interpreter's message. -/
theorem C6_gateway_status_witness :
    (∃ m, handle_prompt Option.none = GatewayResult.error m ∧ m ≠ "") ∧
    handle_prompt (some "hello") =
      GatewayResult.success (generate_response (PyVal.str "hello")) :=
  ⟨(C6_gateway_status Option.none).1 rfl,
   (C6_gateway_status (some "hello")).2 "hello" rfl⟩

/-- C7 (confirmed): for every well-formed record with `parts_needed =
false`, `complexity_level` lowering to medium/low and `further_inquiry
= true`, the interpreter returns exactly the `further_questions`
string when it is non-empty, and the fixed
need-more-info-but-none-provided message when `further_questions` is
empty or absent. -/
theorem C7_further_questions (d : List (String × PyVal)) (cl : String)
    (hpn : dictFind d "parts_needed" = some (PyVal.bool false))
    (hcl : dictFind d "complexity_level" = some (PyVal.str cl))
    (hclv : strLower cl = "medium" ∨ strLower cl = "low")
    (hfi : dictFind d "further_inquiry" = some (PyVal.bool true)) :
    ((dictFind d "further_questions" = Option.none ∨
        dictFind d "further_questions" = some (PyVal.str "")) →
      generate_response (PyVal.dict d) = PyVal.str no_questions_message) ∧
    (∀ q : String, dictFind d "further_questions" = some (PyVal.str q) → q ≠ "" →
      generate_response (PyVal.dict d) = PyVal.str q) := by
  rw [generate_response_dict, handle_dict_reduces d _ _ cl hpn hcl hfi]
  have hnh : pyEqStrB (PyVal.str (strLower cl)) "high" = false := by
    rcases hclv with h | h <;> simp [pyEqStrB, h]
  have hml : (pyEqStrB (PyVal.str (strLower cl)) "medium" ||
      pyEqStrB (PyVal.str (strLower cl)) "low") = true := by
    rcases hclv with h | h <;> simp [pyEqStrB, h]
  constructor
  · intro hfq
    rcases hfq with h | h <;>
      simp [decisionTable, isTrueLit, isFalseLit, hnh, hml, h, pyTruthy]
  · intro q hq hne
    simp [decisionTable, isTrueLit, isFalseLit, hnh, hml, hq, pyTruthy, hne]

/-- Witness for C7: the spec's own example — `complexity_level="low"`,
`further_inquiry=true`, `further_questions="What is the model
number?"` — yields exactly that question. -/
theorem C7_further_questions_witness :
    generate_response (PyVal.dict [("parts_needed", PyVal.bool false),
      ("complexity_level", PyVal.str "low"), ("further_inquiry", PyVal.bool true),
      ("further_questions", PyVal.str "What is the model number?")]) =
      PyVal.str "What is the model number?" :=
  (C7_further_questions [("parts_needed", PyVal.bool false),
      ("complexity_level", PyVal.str "low"), ("further_inquiry", PyVal.bool true),
      ("further_questions", PyVal.str "What is the model number?")] "low" rfl rfl
      (Or.inr rfl) rfl).2 "What is the model number?" rfl (by decide)

/-- C8, counterexample: a status-200 payload whose first content
element is a record without a `text` field does not produce a Failure:
`content[0].get('text', '')` supplies the empty string as a default
and the client returns it as a success value. -/
theorem C8_missing_text_counterexample :
    send_claude_request_on_200 (PyVal.dict [("content", PyVal.list [PyVal.dict []])]) =
      some (PyVal.str "") ∧
    send_claude_request_on_200 (PyVal.dict [("content", PyVal.list [PyVal.dict []])]) ≠
      Option.none := by
  refine ⟨rfl, ?_⟩
  intro hc
  have h1 : send_claude_request_on_200
      (PyVal.dict [("content", PyVal.list [PyVal.dict []])]) = some (PyVal.str "") := rfl
  rw [h1] at hc
  exact Option.noConfusion hc

/-- C8, amended: for every successful (status 200) response, the
client returns a Failure when the payload is not a record, when
`content` is missing, empty or not a list, or when the first content
element is not a record; when the first content element is a record
without a `text` field it returns the empty string rather than a
Failure; and it returns the first content item's `text` when the
payload is well-shaped. -/
theorem C8_payload_extraction :
    (∀ v : PyVal, v.isDict = false → send_claude_request_on_200 v = Option.none) ∧
    (∀ d, dictFind d "content" = Option.none →
      send_claude_request_on_200 (PyVal.dict d) = Option.none) ∧
    (∀ d, dictFind d "content" = some (PyVal.list []) →
      send_claude_request_on_200 (PyVal.dict d) = Option.none) ∧
    (∀ d c, dictFind d "content" = some c → c.isList = false →
      send_claude_request_on_200 (PyVal.dict d) = Option.none) ∧
    (∀ d x xs, dictFind d "content" = some (PyVal.list (x :: xs)) → x.isDict = false →
      send_claude_request_on_200 (PyVal.dict d) = Option.none) ∧
    (∀ d es xs, dictFind d "content" = some (PyVal.list (PyVal.dict es :: xs)) →
      dictFind es "text" = Option.none →
      send_claude_request_on_200 (PyVal.dict d) = some (PyVal.str "")) ∧
    (∀ d es xs t, dictFind d "content" = some (PyVal.list (PyVal.dict es :: xs)) →
      dictFind es "text" = some t →
      send_claude_request_on_200 (PyVal.dict d) = some t) := by
  refine ⟨?_, ?_, ?_, ?_, ?_, ?_, ?_⟩
  · intro v h
    cases v with
    | dict es => simp [PyVal.isDict] at h
    | none => rfl
    | bool b => rfl
    | int n => rfl
    | float m e => rfl
    | str t => rfl
    | list xs => rfl
  · intro d h
    simp [send_claude_request_on_200, send_claude_request_200_body, pyGet, h, pyTruthy]
  · intro d h
    simp [send_claude_request_on_200, send_claude_request_200_body, pyGet, h, pyTruthy]
  · intro d c h hc
    simp [send_claude_request_on_200, send_claude_request_200_body, pyGet, h, hc]
  · intro d x xs h hx
    cases x with
    | dict es => simp [PyVal.isDict] at hx
    | none =>
      simp [send_claude_request_on_200, send_claude_request_200_body, pyGet, h, pyTruthy,
        PyVal.isList, pyLen, pyIndexZero]
    | bool b =>
      simp [send_claude_request_on_200, send_claude_request_200_body, pyGet, h, pyTruthy,
        PyVal.isList, pyLen, pyIndexZero]
    | int n =>
      simp [send_claude_request_on_200, send_claude_request_200_body, pyGet, h, pyTruthy,
        PyVal.isList, pyLen, pyIndexZero]
    | float m e =>
      simp [send_claude_request_on_200, send_claude_request_200_body, pyGet, h, pyTruthy,
        PyVal.isList, pyLen, pyIndexZero]
    | str t =>
      simp [send_claude_request_on_200, send_claude_request_200_body, pyGet, h, pyTruthy,
        PyVal.isList, pyLen, pyIndexZero]
    | list ys =>
      simp [send_claude_request_on_200, send_claude_request_200_body, pyGet, h, pyTruthy,
        PyVal.isList, pyLen, pyIndexZero]
  · intro d es xs h ht
    simp [send_claude_request_on_200, send_claude_request_200_body, pyGet, h, ht, pyTruthy,
      PyVal.isList, pyLen, pyIndexZero]
  · intro d es xs t h ht
    simp [send_claude_request_on_200, send_claude_request_200_body, pyGet, h, ht, pyTruthy,
      PyVal.isList, pyLen, pyIndexZero]

/-- Witness for C8: a well-shaped payload yields the first content
item's text. -/
theorem C8_payload_extraction_witness :
    send_claude_request_on_200 (PyVal.dict [("content",
      PyVal.list [PyVal.dict [("text", PyVal.str "hi")]])]) = some (PyVal.str "hi") :=
  C8_payload_extraction.2.2.2.2.2.2 [("content", PyVal.list [PyVal.dict [("text", PyVal.str "hi")]])]
    [("text", PyVal.str "hi")] [] (PyVal.str "hi") rfl rfl

/-- C9 (confirmed): a record with all three required keys present, a
string `complexity_level` that does not lower to `"high"`, and a
`parts_needed` that is neither the boolean `True` nor the boolean
`False` (for example the string `"true"`) falls through both decision
rules into the final defensive branch and yields its fixed fallback
message — the branch is reachable, not dead code. -/
theorem C9_defensive_fallback_reachable (d : List (String × PyVal)) (pn fi : PyVal) (cl : String)
    (hpn : dictFind d "parts_needed" = some pn)
    (hcl : dictFind d "complexity_level" = some (PyVal.str cl))
    (hfi : dictFind d "further_inquiry" = some fi)
    (hnb : pn ≠ PyVal.bool true ∧ pn ≠ PyVal.bool false)
    (hnh : strLower cl ≠ "high") :
    generate_response (PyVal.dict d) = PyVal.str fallback_message := by
  rw [generate_response_dict, handle_dict_reduces d _ _ cl hpn hcl hfi]
  have h1 : isTrueLit pn = false := by
    cases pn <;> simp [isTrueLit]
    rename_i b; cases b <;> simp_all
  have h2 : isFalseLit pn = false := by
    cases pn <;> simp [isFalseLit]
    rename_i b; cases b <;> simp_all
  simp [decisionTable, h1, h2, pyEqStrB, hnh]

/-- Witness for C9: `parts_needed = "true"` (a string, not a boolean)
with `complexity_level = "low"` lands in the defensive fallback. -/
theorem C9_defensive_fallback_reachable_witness :
    generate_response (PyVal.dict [("parts_needed", PyVal.str "true"),
      ("complexity_level", PyVal.str "low"), ("further_inquiry", PyVal.bool true)]) =
      PyVal.str fallback_message :=
  C9_defensive_fallback_reachable [("parts_needed", PyVal.str "true"),
      ("complexity_level", PyVal.str "low"), ("further_inquiry", PyVal.bool true)]
    (PyVal.str "true") (PyVal.bool true) "low" rfl rfl rfl
    (by constructor <;> intro h <;> cases h) (by decide)

/-- C10 (confirmed): every raw string that decodes as JSON to a
non-record value is not echoed back: the interpreter's
exception-to-string conversion produces a diagnostic beginning with
`Error processing repair analysis`. -/
theorem C10_nonrecord_json_diagnostic (s : String) (v : PyVal)
    (hj : json_loads s = some v) (hd : v.isDict = false) :
    ∃ m, generate_response (PyVal.str s) =
      PyVal.str ("Error processing repair analysis: " ++ m) := by
  obtain ⟨m, hm⟩ := handle_nondict v hd
  exact ⟨m, by simp [generate_response, generate_response_body, hj, hm]⟩

/-- Witness for C10: the input `"42"` decodes to the JSON number 42,
not a record, and the interpreter answers with the diagnostic
prefix. -/
theorem C10_nonrecord_json_diagnostic_witness :
    ∃ m, generate_response (PyVal.str "42") =
      PyVal.str ("Error processing repair analysis: " ++ m) :=
  C10_nonrecord_json_diagnostic "42" (PyVal.int 42) rfl rfl
